import Mathlib

/-!
Verification of the RFC7807 error-translation middleware
(`src/middleware/rfc7807_handler.go`, package `middleware`).

The Go code is shallowly embedded: Go interface values that can appear as
the response body become an inductive `Body`; error values become the
inductive `GoError` (the tagged union of opaque errors, `goa.ServiceError`
values and cause-wrapping errors recommended by the design notes, and
exactly the cases the handler distinguishes dynamically); the request
context state the handler reads and mutates (`ctx.Value(reqIDKey)` and
`goa.ContextResponse(ctx).ErrorCode`) becomes an explicit `Ctx` record.
The two random identifier sources (`shortID()` and the identifier that
`goa.ErrInternal`'s error carries) are passed in as explicit string
parameters, which makes the translator a pure function.

A Go run that panics (a failed dynamic type assertion) is modelled as
`sent = none`: no response reaches `service.Send`.  Log records emitted
before the panic are kept, since `goa.LogError` runs before the assertion.
-/

namespace Rfc7807

/-- A value implementing the external `goa.ServiceError` interface: the three
methods the handler calls are `ResponseStatus()`, `Token()` and `Error()`. -/
structure ServiceError where
  status : Nat
  token : String
  msg : String
deriving DecidableEq, Repr

/-- Models the concrete error value the external goa v1 library's
`goa.ErrInternal(msg)` returns: a goa `ErrorResponse` with a freshly
generated identifier, class code, status 500 and the message as detail.
Crucially it is a goa-package type: it is never a `*Rfc7807Response`
(a type private to the middleware package), and its serialized form
carries an `id` field, not a `trace_id` field. -/
structure GoaErrorResponse where
  id : String
  code : String
  status : Nat
  detail : String
deriving DecidableEq, Repr

/-- The `Rfc7807Response` payload declared at the top of the source file
(its JSON tags: `tye`, `title`, `status`, `detail`, `instance`, `trace_id`,
`meta`).  The handler never constructs one, but line 76 type-asserts the
response body to `*Rfc7807Response`, so the type is part of the model. -/
structure Rfc7807Response where
  type : String
  title : String
  status : Nat
  detail : String
  «instance» : String
  trace_id : String
deriving DecidableEq, Repr

/-- `Rfc7807JsonMediaIdentifier` constant from the source. -/
def Rfc7807JsonMediaIdentifier : String := "application/problem+json"

/-- `Rfc7807XmlMediaIdentifier` constant from the source. -/
def Rfc7807XmlMediaIdentifier : String := "application/problem+xml"

/-- Go error values, as the tagged union the handler distinguishes by
dynamic type tests:
* `opaque msg`: an error exposing neither `Cause()` nor the
  `goa.ServiceError` methods; `Error()` returns `msg`;
* `svc e`: a `goa.ServiceError`;
* `wrap msg inner`: an error implementing `Cause() error`; `Error()`
  returns `msg` and `Cause()` returns `inner` (`none` models a nil cause).
Being an inductive type, every value has a finite (acyclic) cause chain;
cyclic chains are treated separately with `causeLoop` below. -/
inductive GoError where
  | plain (msg : String)
  | svc (e : ServiceError)
  | wrap (msg : String) (inner : Option GoError)

/-- The `Error()` method of a Go error value. -/
def GoError.errMsg : GoError → String
  | .plain m => m
  | .svc e => e.msg
  | .wrap m _ => m

/-- Models `fmt.Sprintf("%+v", e)`: the verbose formatted form of the
error.  For a wrapping error the wrapper's message is printed followed by
the formatted cause (as pkg/errors wrappers do); for terminal errors it is
the `Error()` string.  The one property the claims need is that it is
computed from the outer error `e`, not from its unwrapped root cause. -/
def GoError.formatPlus : GoError → String
  | .plain m => m
  | .svc e => e.msg
  | .wrap m inner =>
    match inner with
    | none => m
    | some c => m ++ "\n" ++ c.formatPlus

/-- The dynamic test `cause.(goa.ServiceError)` (line 53). -/
def GoError.asServiceError : GoError → Option ServiceError
  | .svc e => some e
  | _ => none

/-- The `cause` function (lines 96-112): repeatedly take `Cause()` while
the value implements `causer` and its cause is non-nil; return the last
value reached.  On the inductive `GoError` the Go loop is structural
recursion. -/
def cause : GoError → GoError
  | .wrap _ (some c) => cause c
  | e => e

/-- Response bodies: the dynamic types the handler can store in the
`respBody interface{}` variable, plus `problem` (a `*Rfc7807Response`),
the type line 76's assertion tests for. -/
inductive Body where
  | text (s : String)
  | svc (e : ServiceError)
  | goaErr (r : GoaErrorResponse)
  | problem (r : Rfc7807Response)
deriving DecidableEq, Repr

/-- The dynamic type assertion `respBody.(*Rfc7807Response)` (line 76):
succeeds exactly when the dynamic type is `*Rfc7807Response`. -/
def Body.asRfc7807 : Body → Option Rfc7807Response
  | .problem r => some r
  | _ => none

/-- The value of the `trace_id` field of the serialized body, when the
body's type declares one.  Only `Rfc7807Response` has a `trace_id` field;
goa's `ErrorResponse` serializes its identifier under `id`, a structured
error's own serialization is its implementor's business, and a plain-text
body has no fields. -/
def Body.traceIDField : Body → Option String
  | .problem r => some r.trace_id
  | _ => none

/-- The value of the `detail` field of the serialized body, when the
body's type declares one. -/
def Body.detailField : Body → Option String
  | .problem r => some r.detail
  | .goaErr r => some r.detail
  | _ => none

/-- `http.StatusText` for the status codes this middleware can touch
(only 500 is ever passed to it by the handler). -/
def statusText : Nat → String
  | 500 => "Internal Server Error"
  | _ => ""

/-- Models `goa.ErrInternal(msg)` (external goa v1 library): a goa
`ErrorResponse` with class code "internal", status 500, the message as
detail, and a freshly generated identifier `goaID`. -/
def goaErrInternal (goaID msg : String) : GoaErrorResponse :=
  { id := goaID, code := "internal", status := 500, detail := msg }

/-- The request-scoped state the handler reads and writes:
`reqID` is `ctx.Value(reqIDKey)` (the correlation identifier, if the
context already carries one); `errorCode` is
`goa.ContextResponse(ctx).ErrorCode`. -/
structure Ctx where
  reqID : Option String
  errorCode : String
deriving DecidableEq, Repr

/-- One `goa.LogError` record: the event tag and the `err`, `id` and
`msg` key/value pairs of line 68. -/
structure LogRecord where
  tag : String
  err : String
  id : String
  msg : Body
deriving DecidableEq, Repr

/-- The (status, body, content-type) triple handed to `service.Send`,
together with the final value of the response `Content-Type` header. -/
structure Sent where
  status : Nat
  body : Body
  contentType : String
deriving DecidableEq, Repr

/-- Everything observable about one run of the handler on a non-nil
error: the triple handed to `service.Send` (`none` when the run panics
before reaching it), the emitted log records, the number of times
`shortID()` was called, and the final request-context state. -/
structure Output where
  sent : Option Sent
  logs : List LogRecord
  freshUsed : Nat
  ctxAfter : Ctx
deriving DecidableEq, Repr

/-- The classification step (lines 50-61): resolve the cause, test it for
`goa.ServiceError`, and produce the status, pre-redaction body,
content-type header value, and updated context. -/
def classify (ctx : Ctx) (e : GoError) : Nat × Body × String × Ctx :=
  match (cause e).asServiceError with
  | some err =>
    (err.status, Body.svc err, Rfc7807JsonMediaIdentifier,
      { ctx with errorCode := err.token })
  | none =>
    (500, Body.text e.errMsg, "text/plain", ctx)

/-- The status the classification step resolves for an error. -/
def resolvedStatus (e : GoError) : Nat :=
  match (cause e).asServiceError with
  | some err => err.status
  | none => 500

/-- The handler body of `Rfc7807Handler` (lines 46-80) applied to a
non-nil error `e` (the `e == nil` early return is the caller's success
path and carries no behavior of its own).  `freshID` is the value
`shortID()` returns if called; `goaID` is the identifier generated inside
`goa.ErrInternal` if called. -/
def Rfc7807Handler (verbose : Bool) (ctx : Ctx) (e : GoError)
    (freshID goaID : String) : Output :=
  let (status, respBody, contentType, ctx1) := classify ctx e
  if status = 500 then
    let (reqID, ctx2, used) :=
      match ctx1.reqID with
      | some id => (id, ctx1, 0)
      | none => (freshID, { ctx1 with reqID := some freshID }, 1)
    let log : LogRecord :=
      { tag := "uncaught error", err := e.formatPlus, id := reqID, msg := respBody }
    if verbose then
      { sent := some ⟨status, respBody, contentType⟩, logs := [log],
        freshUsed := used, ctxAfter := ctx2 }
    else
      let msg := statusText 500 ++ " [" ++ reqID ++ "]"
      let redacted := Body.goaErr (goaErrInternal goaID msg)
      if ctx2.errorCode ≠ "" then
        match redacted.asRfc7807 with
        | some r =>
          let r' := { r with trace_id := ctx2.errorCode }
          { sent := some ⟨status, Body.problem r', Rfc7807JsonMediaIdentifier⟩,
            logs := [log], freshUsed := used, ctxAfter := ctx2 }
        | none =>
          -- failed dynamic type assertion on line 76: runtime panic,
          -- service.Send is never reached
          { sent := none, logs := [log], freshUsed := used, ctxAfter := ctx2 }
      else
        { sent := some ⟨status, redacted, Rfc7807JsonMediaIdentifier⟩,
          logs := [log], freshUsed := used, ctxAfter := ctx2 }
  else
    { sent := some ⟨status, respBody, contentType⟩, logs := [],
      freshUsed := 0, ctxAfter := ctx1 }

/-- One iteration step of the `cause` loop over an abstract error domain
`E`, for reasoning about chains the inductive `GoError` cannot represent
(Go errors may form cyclic `Cause()` chains through mutation or
self-reference).  `step e = some c` models `e` implementing `causer` with
non-nil `Cause() = c`; `none` models the two loop exits (no `causer`
capability, or a nil cause). -/
def causeStep {E : Type} (step : E → Option E) : E → Option E := step

/-- The `cause` loop with explicit fuel over an abstract step function.
The Go loop has no fuel; making the fuel explicit lets divergence be
stated: the Go loop terminates on `e` exactly when some fuel suffices. -/
def causeLoop {E : Type} (step : E → Option E) : Nat → E → Option E
  | 0, _ => none
  | n + 1, e =>
    match step e with
    | none => some e
    | some c => causeLoop step n c

/-- The Go `cause` loop terminates on input `e`. -/
def causeTerminates {E : Type} (step : E → Option E) (e : E) : Prop :=
  ∃ n r, causeLoop step n e = some r

/-- The step function of the concrete `GoError` cause chain: a wrapping
error with non-nil cause steps to its cause; everything else exits. -/
def goCauseStep : GoError → Option GoError
  | .wrap _ (some c) => some c
  | _ => none

/-! ### Helper lemmas -/

lemma classify_svc (ctx : Ctx) (e : GoError) (se : ServiceError)
    (h : (cause e).asServiceError = some se) :
    classify ctx e =
      (se.status, Body.svc se, Rfc7807JsonMediaIdentifier,
        { ctx with errorCode := se.token }) := by
  simp [classify, h]

lemma classify_plain (ctx : Ctx) (e : GoError)
    (h : (cause e).asServiceError = none) :
    classify ctx e = (500, Body.text e.errMsg, "text/plain", ctx) := by
  simp [classify, h]

lemma resolvedStatus_svc (e : GoError) (se : ServiceError)
    (h : (cause e).asServiceError = some se) :
    resolvedStatus e = se.status := by
  simp [resolvedStatus, h]

lemma resolvedStatus_plain (e : GoError)
    (h : (cause e).asServiceError = none) :
    resolvedStatus e = 500 := by
  simp [resolvedStatus, h]

lemma resolvedStatus_500_cases (e : GoError) (hs : resolvedStatus e = 500) :
    (cause e).asServiceError = none ∨
      ∃ se, (cause e).asServiceError = some se ∧ se.status = 500 := by
  cases h : (cause e).asServiceError with
  | none => exact Or.inl rfl
  | some se =>
    exact Or.inr ⟨se, rfl, by simpa [resolvedStatus, h] using hs⟩

/-- Normal form of a run whose classification resolves a non-500 status:
the structured error's status and body are sent unmodified, no log record
is emitted, no identifier is generated and the context's correlation slot
is untouched. -/
lemma handler_non500 (verbose : Bool) (ctx : Ctx) (e : GoError)
    (freshID goaID : String) (se : ServiceError)
    (hc : (cause e).asServiceError = some se) (hs : se.status ≠ 500) :
    Rfc7807Handler verbose ctx e freshID goaID =
      { sent := some ⟨se.status, Body.svc se, Rfc7807JsonMediaIdentifier⟩,
        logs := [], freshUsed := 0,
        ctxAfter := { ctx with errorCode := se.token } } := by
  simp only [Rfc7807Handler, classify_svc ctx e se hc]
  rw [if_neg hs]

/-- The correlation identifier a 500-class run uses: the one the context
carries, else the freshly generated one. -/
def usedID (ctx : Ctx) (freshID : String) : String :=
  ctx.reqID.getD freshID

/-- Normal form of a verbose run whose classification resolves 500. -/
lemma handler_500_verbose (ctx : Ctx) (e : GoError) (freshID goaID : String)
    (hs : resolvedStatus e = 500) :
    Rfc7807Handler true ctx e freshID goaID =
      { sent := some ⟨500, (classify ctx e).2.1, (classify ctx e).2.2.1⟩,
        logs := [⟨"uncaught error", e.formatPlus, usedID ctx freshID,
          (classify ctx e).2.1⟩],
        freshUsed := if ctx.reqID = none then 1 else 0,
        ctxAfter :=
          { (classify ctx e).2.2.2 with reqID := some (usedID ctx freshID) } } := by
  obtain ⟨rid, ec⟩ := ctx
  rcases resolvedStatus_500_cases e hs with h | ⟨se, h, h500⟩
  · simp only [Rfc7807Handler, classify_plain _ e h, usedID]
    cases rid <;> simp
  · simp only [Rfc7807Handler, classify_svc _ e se h, h500, usedID]
    cases rid <;> simp

/-- Normal form of a non-verbose run whose classification resolves 500:
one log record with the pre-redaction body; then, depending on whether a
resolved error code is present on the context after classification,
either the failed `*Rfc7807Response` type assertion (no response is sent)
or the redacted goa internal-error body. -/
lemma handler_500_redacted (ctx : Ctx) (e : GoError) (freshID goaID : String)
    (hs : resolvedStatus e = 500) :
    Rfc7807Handler false ctx e freshID goaID =
      { sent :=
          if (classify ctx e).2.2.2.errorCode = "" then
            some ⟨500,
              Body.goaErr (goaErrInternal goaID
                (statusText 500 ++ " [" ++ usedID ctx freshID ++ "]")),
              Rfc7807JsonMediaIdentifier⟩
          else none,
        logs := [⟨"uncaught error", e.formatPlus, usedID ctx freshID,
          (classify ctx e).2.1⟩],
        freshUsed := if ctx.reqID = none then 1 else 0,
        ctxAfter :=
          { (classify ctx e).2.2.2 with reqID := some (usedID ctx freshID) } } := by
  obtain ⟨rid, ec⟩ := ctx
  rcases resolvedStatus_500_cases e hs with h | ⟨se, h, h500⟩
  · simp only [Rfc7807Handler, classify_plain _ e h, usedID]
    cases rid <;> by_cases hec : ec = "" <;> simp_all [Body.asRfc7807]
  · simp only [Rfc7807Handler, classify_svc _ e se h, h500, usedID]
    cases rid <;> by_cases hec : se.token = "" <;> simp_all [Body.asRfc7807]

lemma causeLoop_self_cycle (n : Nat) :
    causeLoop (fun _ : Unit => some ()) n () = none := by
  induction n with
  | zero => rfl
  | succ n ih => simpa [causeLoop] using ih

/-! ### Claims -/

/-- C1: the spec asserts the translator never faults and always hands a
complete (status, body, content-type) triple to the sender.  The code
violates this: on a structured service error declaring status 500 with a
nonempty token, in non-verbose mode, `respBody` is the value returned by
`goa.ErrInternal` (a goa-package error type) and the dynamic type
assertion `respBody.(*Rfc7807Response)` on line 76 fails, so the handler
panics and nothing is handed to `service.Send`. -/
theorem C1_panics_on_structured_500_nonverbose :
    (Rfc7807Handler false ⟨none, ""⟩ (.svc ⟨500, "internal", "boom"⟩)
      "r1" "g1").sent = none := by
  decide

/-- C2 counterexample: for the redacted opaque failure "boom" the log
record carries the correlation identifier "r1", yet the client-visible
body (goa's internal-error response) has no `trace_id` field at all, so
its `trace_id` is not the logged identifier. -/
theorem C2_counterexample :
    ((Rfc7807Handler false ⟨none, ""⟩ (.plain "boom") "r1" "g1").logs.map
      LogRecord.id = ["r1"]) ∧
    ¬ (((Rfc7807Handler false ⟨none, ""⟩ (.plain "boom") "r1" "g1").sent.map
      Sent.body).bind Body.traceIDField = some "r1") := by
  decide

/-- C2 (amended): whenever a redacted (non-verbose) 500 response is
actually sent, its body carries no `trace_id` field; the correlation
identifier is instead embedded in the body's `detail` string, which is
exactly `"Internal Server Error [<id>]"` for the same `<id>` written to
the log record. -/
theorem C2_detail_embeds_logged_id (ctx : Ctx) (e : GoError)
    (freshID goaID : String) (hs : resolvedStatus e = 500) (s : Sent)
    (hsent : (Rfc7807Handler false ctx e freshID goaID).sent = some s) :
    (Rfc7807Handler false ctx e freshID goaID).logs.map LogRecord.id =
      [usedID ctx freshID] ∧
    s.body.detailField =
      some (statusText 500 ++ " [" ++ usedID ctx freshID ++ "]") ∧
    s.body.traceIDField = none := by
  rw [handler_500_redacted ctx e freshID goaID hs] at hsent ⊢
  refine ⟨by simp, ?_⟩
  by_cases hec : (classify ctx e).2.2.2.errorCode = ""
  · rw [if_pos hec] at hsent
    simp only [Option.some.injEq] at hsent
    subst hsent
    exact ⟨rfl, rfl⟩
  · rw [if_neg hec] at hsent
    exact absurd hsent (by simp)

/-- C2 witness: the amended theorem applied to the opaque failure "boom"
with no pre-existing correlation identifier. -/
theorem C2_witness :
    (Rfc7807Handler false ⟨none, ""⟩ (.plain "boom") "r1" "g1").logs.map
      LogRecord.id = [usedID ⟨none, ""⟩ "r1"] ∧
    (Sent.body ⟨500,
      Body.goaErr (goaErrInternal "g1"
        (statusText 500 ++ " [" ++ usedID ⟨none, ""⟩ "r1" ++ "]")),
      Rfc7807JsonMediaIdentifier⟩).detailField =
      some (statusText 500 ++ " [" ++ usedID ⟨none, ""⟩ "r1" ++ "]") ∧
    (Sent.body ⟨500,
      Body.goaErr (goaErrInternal "g1"
        (statusText 500 ++ " [" ++ usedID ⟨none, ""⟩ "r1" ++ "]")),
      Rfc7807JsonMediaIdentifier⟩).traceIDField = none :=
  C2_detail_embeds_logged_id ⟨none, ""⟩ (.plain "boom") "r1" "g1" rfl _ (by decide)

/-- C3: the spec asserts that in non-verbose 500 runs the replacement
body's `trace_id` is the recorded error code when one was recorded, else
the context's correlation identifier.  The code violates both halves:
with a recorded code (token "tok1") the type assertion on line 76 panics
and no body is sent at all; with no recorded code and the context
carrying correlation identifier "c0", the sent body (goa's internal-error
response) has no `trace_id` field. -/
theorem C3_trace_id_never_set :
    ((Rfc7807Handler false ⟨none, ""⟩ (.svc ⟨500, "tok1", "boom"⟩)
      "r1" "g1").sent = none) ∧
    (((Rfc7807Handler false ⟨some "c0", ""⟩ (.plain "boom")
      "r1" "g1").sent.map Sent.body).bind Body.traceIDField = none) := by
  decide

/-- C4 counterexample: the `cause` loop has no chain-length bound and no
cycle guard, so on an error whose `Cause()` returns the error itself
(modelled by the one-point domain with `step _ = some ()`), no amount of
fuel makes the loop return: it diverges. -/
theorem C4_counterexample : ¬ causeTerminates (fun _ : Unit => some ()) () := by
  rintro ⟨n, r, h⟩
  rw [causeLoop_self_cycle n] at h
  exact Option.noConfusion h

/-- C4 (amended): cause resolution terminates for every error whose cause
chain is acyclic (finite) — as is every chain built by wrapping — and its
result is the structural root cause, a value that exposes no further
non-nil cause.  The code has no bound or cycle guard, so this covers
exactly the acyclic case. -/
theorem C4_terminates_on_acyclic_chains :
    ∀ e : GoError, ∃ n r, causeLoop goCauseStep n e = some r ∧
      r = cause e ∧ goCauseStep r = none
  | .plain m => ⟨1, .plain m, rfl, rfl, rfl⟩
  | .svc s => ⟨1, .svc s, rfl, rfl, rfl⟩
  | .wrap m none => ⟨1, .wrap m none, rfl, rfl, rfl⟩
  | .wrap m (some c) => by
    obtain ⟨n, r, h1, h2, h3⟩ := C4_terminates_on_acyclic_chains c
    exact ⟨n + 1, r, by simpa [causeLoop, goCauseStep] using h1,
      by rw [h2]; rfl, h3⟩

/-- C5 counterexample: the redacted detail is the fixed string
`"Internal Server Error [<id>]"`, which does contain the original error's
message text when that message happens to be (for example) the string
"Internal Server Error": the original message is a prefix of the
client-visible detail, contradicting "never contains". -/
theorem C5_counterexample :
    ((((Rfc7807Handler false ⟨none, ""⟩ (.plain "Internal Server Error")
      "r1" "g1").sent.map Sent.body).bind Body.detailField) =
      some "Internal Server Error [r1]") ∧
    (GoError.plain "Internal Server Error").errMsg = "Internal Server Error" ∧
    "Internal Server Error [r1]" = "Internal Server Error" ++ " [r1]" := by
  decide

/-- C5 (amended): whenever a redacted (non-verbose) 500 response is sent,
its content-type is `application/problem+json`, its body is the goa
internal-error value built solely from the correlation identifier — hence
independent of the original error's message — and its detail is exactly
`"<standard HTTP 500 reason phrase> [<correlation identifier>]"`.  (The
fixed detail can still literally contain the original message in the
degenerate case where that message is a substring of it.) -/
theorem C5_redacted_detail_shape (ctx : Ctx) (e : GoError)
    (freshID goaID : String) (hs : resolvedStatus e = 500) (s : Sent)
    (hsent : (Rfc7807Handler false ctx e freshID goaID).sent = some s) :
    s.contentType = Rfc7807JsonMediaIdentifier ∧
    s.body = Body.goaErr (goaErrInternal goaID
      (statusText 500 ++ " [" ++ usedID ctx freshID ++ "]")) ∧
    s.body.detailField =
      some (statusText 500 ++ " [" ++ usedID ctx freshID ++ "]") := by
  rw [handler_500_redacted ctx e freshID goaID hs] at hsent
  by_cases hec : (classify ctx e).2.2.2.errorCode = ""
  · rw [if_pos hec] at hsent
    simp only [Option.some.injEq] at hsent
    subst hsent
    exact ⟨rfl, rfl, rfl⟩
  · rw [if_neg hec] at hsent
    exact absurd hsent (by simp)

/-- C5 witness: the amended theorem applied to the opaque failure
"disk is full" with no pre-existing correlation identifier. -/
theorem C5_witness :
    (Sent.contentType ⟨500,
      Body.goaErr (goaErrInternal "g1"
        (statusText 500 ++ " [" ++ usedID ⟨none, ""⟩ "r1" ++ "]")),
      Rfc7807JsonMediaIdentifier⟩) = Rfc7807JsonMediaIdentifier ∧
    (Sent.body ⟨500,
      Body.goaErr (goaErrInternal "g1"
        (statusText 500 ++ " [" ++ usedID ⟨none, ""⟩ "r1" ++ "]")),
      Rfc7807JsonMediaIdentifier⟩) =
      Body.goaErr (goaErrInternal "g1"
        (statusText 500 ++ " [" ++ usedID ⟨none, ""⟩ "r1" ++ "]")) ∧
    (Sent.body ⟨500,
      Body.goaErr (goaErrInternal "g1"
        (statusText 500 ++ " [" ++ usedID ⟨none, ""⟩ "r1" ++ "]")),
      Rfc7807JsonMediaIdentifier⟩).detailField =
      some (statusText 500 ++ " [" ++ usedID ⟨none, ""⟩ "r1" ++ "]") :=
  C5_redacted_detail_shape ⟨none, ""⟩ (.plain "disk is full") "r1" "g1" rfl _
    (by decide)

/-- C6: every failure that resolves to status 500 emits exactly one log
record, tagged "uncaught error", carrying the full formatted original
(wrapped) error, the correlation identifier in use, and the pre-redaction
response body computed by the classification step; every failure
resolving to another status emits no log record.  This holds in both
verbose and non-verbose modes (the log is written before any redaction or
the failing type assertion). -/
theorem C6_exactly_one_log_on_500 (verbose : Bool) (ctx : Ctx) (e : GoError)
    (freshID goaID : String) :
    (resolvedStatus e = 500 →
      (Rfc7807Handler verbose ctx e freshID goaID).logs =
        [⟨"uncaught error", e.formatPlus, usedID ctx freshID,
          (classify ctx e).2.1⟩]) ∧
    (resolvedStatus e ≠ 500 →
      (Rfc7807Handler verbose ctx e freshID goaID).logs = []) := by
  constructor
  · intro hs
    cases verbose
    · rw [handler_500_redacted ctx e freshID goaID hs]
    · rw [handler_500_verbose ctx e freshID goaID hs]
  · intro hs
    rcases h : (cause e).asServiceError with _ | se
    · exact absurd (resolvedStatus_plain e h) hs
    · have h500 : se.status ≠ 500 := by
        rw [resolvedStatus_svc e se h] at hs; exact hs
      rw [handler_non500 verbose ctx e freshID goaID se h h500]

/-- C6 witness: the plain error "disk full" in non-verbose mode emits
exactly the one expected log record. -/
theorem C6_witness :
    (Rfc7807Handler false ⟨none, ""⟩ (.plain "disk full") "r1" "g1").logs =
      [⟨"uncaught error", (GoError.plain "disk full").formatPlus,
        usedID ⟨none, ""⟩ "r1",
        (classify ⟨none, ""⟩ (.plain "disk full")).2.1⟩] :=
  (C6_exactly_one_log_on_500 false ⟨none, ""⟩ (.plain "disk full")
    "r1" "g1").1 rfl

/-- C7: when the root cause is a structured service error declaring a
status other than 500, the handler sends exactly that status with the
structured error value itself as the body, content-type
`application/problem+json`, and emits no log record — in both verbose and
non-verbose modes (and it never generates a correlation identifier). -/
theorem C7_structured_non500_passthrough (verbose : Bool) (ctx : Ctx)
    (freshID goaID : String) (e : GoError) (se : ServiceError)
    (hc : (cause e).asServiceError = some se) (hs : se.status ≠ 500) :
    (Rfc7807Handler verbose ctx e freshID goaID).sent =
      some ⟨se.status, Body.svc se, Rfc7807JsonMediaIdentifier⟩ ∧
    (Rfc7807Handler verbose ctx e freshID goaID).logs = [] ∧
    (Rfc7807Handler verbose ctx e freshID goaID).freshUsed = 0 := by
  rw [handler_non500 verbose ctx e freshID goaID se hc hs]
  exact ⟨rfl, rfl, rfl⟩

/-- C7 witness: a structured 404 "not_found" error in non-verbose mode is
passed through unmodified with no log record. -/
theorem C7_witness :
    (Rfc7807Handler false ⟨none, ""⟩ (.svc ⟨404, "not_found", "nf"⟩)
      "r1" "g1").sent =
      some ⟨404, Body.svc ⟨404, "not_found", "nf"⟩,
        Rfc7807JsonMediaIdentifier⟩ ∧
    (Rfc7807Handler false ⟨none, ""⟩ (.svc ⟨404, "not_found", "nf"⟩)
      "r1" "g1").logs = [] ∧
    (Rfc7807Handler false ⟨none, ""⟩ (.svc ⟨404, "not_found", "nf"⟩)
      "r1" "g1").freshUsed = 0 :=
  C7_structured_non500_passthrough false ⟨none, ""⟩ "r1" "g1"
    (.svc ⟨404, "not_found", "nf"⟩) ⟨404, "not_found", "nf"⟩ rfl (by decide)

/-- C8: in verbose mode every failure resolving to 500 is sent with the
body and content-type exactly as computed by the classification step: for
a structured 500 error its own body with `application/problem+json`, for
an opaque failure the original error's message string with `text/plain`. -/
theorem C8_verbose_sends_classification_unmodified (ctx : Ctx) (e : GoError)
    (freshID goaID : String) (hs : resolvedStatus e = 500) :
    (Rfc7807Handler true ctx e freshID goaID).sent =
      some ⟨500, (classify ctx e).2.1, (classify ctx e).2.2.1⟩ ∧
    ((cause e).asServiceError = none →
      (classify ctx e).2.1 = Body.text e.errMsg ∧
      (classify ctx e).2.2.1 = "text/plain") ∧
    (∀ se, (cause e).asServiceError = some se →
      (classify ctx e).2.1 = Body.svc se ∧
      (classify ctx e).2.2.1 = Rfc7807JsonMediaIdentifier) := by
  refine ⟨?_, ?_, ?_⟩
  · rw [handler_500_verbose ctx e freshID goaID hs]
  · intro h
    rw [classify_plain ctx e h]
    exact ⟨rfl, rfl⟩
  · intro se h
    rw [classify_svc ctx e se h]
    exact ⟨rfl, rfl⟩

/-- C8 witness: an opaque failure "boom" in verbose mode is sent as its
own message text with content-type text/plain. -/
theorem C8_witness :
    (Rfc7807Handler true ⟨none, ""⟩ (.plain "boom") "r1" "g1").sent =
      some ⟨500, (classify ⟨none, ""⟩ (.plain "boom")).2.1,
        (classify ⟨none, ""⟩ (.plain "boom")).2.2.1⟩ ∧
    (classify ⟨none, ""⟩ (.plain "boom")).2.1 =
      Body.text (GoError.plain "boom").errMsg ∧
    (classify ⟨none, ""⟩ (.plain "boom")).2.2.1 = "text/plain" :=
  ⟨(C8_verbose_sends_classification_unmodified ⟨none, ""⟩ (.plain "boom")
      "r1" "g1" rfl).1,
   (C8_verbose_sends_classification_unmodified ⟨none, ""⟩ (.plain "boom")
      "r1" "g1" rfl).2.1 rfl⟩

/-- C9: for a wrapped error whose unwound root cause is not a structured
service error, the error string placed in the log record is the formatted
form of the original outer error, the logged pre-redaction body and the
body shown to the client (in verbose mode) are the outer error's message
— not the unwrapped root cause's message, whenever the two differ. -/
theorem C9_outer_message_is_used (verbose : Bool) (ctx : Ctx)
    (freshID goaID m : String) (inner : GoError)
    (h : (cause (.wrap m (some inner))).asServiceError = none) :
    ((Rfc7807Handler verbose ctx (.wrap m (some inner)) freshID goaID).logs.map
      LogRecord.err = [(GoError.wrap m (some inner)).formatPlus]) ∧
    ((Rfc7807Handler verbose ctx (.wrap m (some inner)) freshID goaID).logs.map
      LogRecord.msg = [Body.text m]) ∧
    (verbose = true →
      (Rfc7807Handler verbose ctx (.wrap m (some inner)) freshID goaID).sent =
        some ⟨500, Body.text m, "text/plain"⟩) ∧
    (m ≠ (cause inner).errMsg →
      Body.text m ≠ Body.text ((cause inner).errMsg)) := by
  have hs := resolvedStatus_plain _ h
  refine ⟨?_, ?_, ?_, ?_⟩
  · cases verbose
    · rw [handler_500_redacted ctx _ freshID goaID hs,
        classify_plain ctx _ h]
      rfl
    · rw [handler_500_verbose ctx _ freshID goaID hs,
        classify_plain ctx _ h]
      rfl
  · cases verbose
    · rw [handler_500_redacted ctx _ freshID goaID hs,
        classify_plain ctx _ h]
      rfl
    · rw [handler_500_verbose ctx _ freshID goaID hs,
        classify_plain ctx _ h]
      rfl
  · intro hv
    subst hv
    rw [handler_500_verbose ctx _ freshID goaID hs, classify_plain ctx _ h]
    rfl
  · intro hne hcontra
    exact hne (by injection hcontra)

/-- C9 witness: the wrapped error with outer message "failed to save"
around the opaque cause "disk full", verbose mode: the client body is the
outer message, which differs from the inner cause's message. -/
theorem C9_witness :
    ((Rfc7807Handler true ⟨none, ""⟩
      (.wrap "failed to save" (some (.plain "disk full"))) "r1" "g1").sent =
      some ⟨500, Body.text "failed to save", "text/plain"⟩) ∧
    Body.text "failed to save" ≠
      Body.text ((cause (.plain "disk full")).errMsg) :=
  ⟨(C9_outer_message_is_used true ⟨none, ""⟩ "r1" "g1" "failed to save"
      (.plain "disk full") rfl).2.2.1 rfl,
   (C9_outer_message_is_used true ⟨none, ""⟩ "r1" "g1" "failed to save"
      (.plain "disk full") rfl).2.2.2 (by decide)⟩

/-- C10: the correlation identifier is created lazily and at most once
per invocation: `shortID()` is called at most once; it is called exactly
once when the resolved status is 500 and the context carries no
identifier (the fresh identifier is then attached to the context and
logged); when the context already carries one, that one is reused and
none is generated; and on every non-500 failure none is generated and
the context's identifier slot is untouched. -/
theorem C10_lazy_single_id (verbose : Bool) (ctx : Ctx) (e : GoError)
    (freshID goaID : String) :
    (Rfc7807Handler verbose ctx e freshID goaID).freshUsed ≤ 1 ∧
    (resolvedStatus e ≠ 500 →
      (Rfc7807Handler verbose ctx e freshID goaID).freshUsed = 0 ∧
      (Rfc7807Handler verbose ctx e freshID goaID).ctxAfter.reqID =
        ctx.reqID) ∧
    (resolvedStatus e = 500 → ∀ id, ctx.reqID = some id →
      (Rfc7807Handler verbose ctx e freshID goaID).freshUsed = 0 ∧
      (Rfc7807Handler verbose ctx e freshID goaID).ctxAfter.reqID =
        some id ∧
      (Rfc7807Handler verbose ctx e freshID goaID).logs.map LogRecord.id =
        [id]) ∧
    (resolvedStatus e = 500 → ctx.reqID = none →
      (Rfc7807Handler verbose ctx e freshID goaID).freshUsed = 1 ∧
      (Rfc7807Handler verbose ctx e freshID goaID).ctxAfter.reqID =
        some freshID ∧
      (Rfc7807Handler verbose ctx e freshID goaID).logs.map LogRecord.id =
        [freshID]) := by
  have hnon : resolvedStatus e ≠ 500 →
      (Rfc7807Handler verbose ctx e freshID goaID).freshUsed = 0 ∧
      (Rfc7807Handler verbose ctx e freshID goaID).ctxAfter.reqID =
        ctx.reqID := by
    intro hs
    rcases h : (cause e).asServiceError with _ | se
    · exact absurd (resolvedStatus_plain e h) hs
    · have h500 : se.status ≠ 500 := by
        rw [resolvedStatus_svc e se h] at hs; exact hs
      rw [handler_non500 verbose ctx e freshID goaID se h h500]
      exact ⟨rfl, rfl⟩
  have h500some : resolvedStatus e = 500 → ∀ id, ctx.reqID = some id →
      (Rfc7807Handler verbose ctx e freshID goaID).freshUsed = 0 ∧
      (Rfc7807Handler verbose ctx e freshID goaID).ctxAfter.reqID =
        some id ∧
      (Rfc7807Handler verbose ctx e freshID goaID).logs.map LogRecord.id =
        [id] := by
    intro hs id hid
    cases verbose
    · rw [handler_500_redacted ctx e freshID goaID hs]
      simp [usedID, hid]
    · rw [handler_500_verbose ctx e freshID goaID hs]
      simp [usedID, hid]
  have h500none : resolvedStatus e = 500 → ctx.reqID = none →
      (Rfc7807Handler verbose ctx e freshID goaID).freshUsed = 1 ∧
      (Rfc7807Handler verbose ctx e freshID goaID).ctxAfter.reqID =
        some freshID ∧
      (Rfc7807Handler verbose ctx e freshID goaID).logs.map LogRecord.id =
        [freshID] := by
    intro hs hid
    cases verbose
    · rw [handler_500_redacted ctx e freshID goaID hs]
      simp [usedID, hid]
    · rw [handler_500_verbose ctx e freshID goaID hs]
      simp [usedID, hid]
  refine ⟨?_, hnon, h500some, h500none⟩
  by_cases hs : resolvedStatus e = 500
  · cases hid : ctx.reqID with
    | none => exact (h500none hs hid).1.le
    | some id => exact (h500some hs id hid).1.le.trans (by norm_num)
  · exact (hnon hs).1.le.trans (by norm_num)

/-- C10 witness: an opaque failure with no identifier on the context
generates exactly one fresh identifier, attaches and logs it. -/
theorem C10_witness :
    (Rfc7807Handler false ⟨none, ""⟩ (.plain "boom") "r1" "g1").freshUsed =
      1 ∧
    (Rfc7807Handler false ⟨none, ""⟩ (.plain "boom")
      "r1" "g1").ctxAfter.reqID = some "r1" ∧
    (Rfc7807Handler false ⟨none, ""⟩ (.plain "boom") "r1" "g1").logs.map
      LogRecord.id = ["r1"] :=
  (C10_lazy_single_id false ⟨none, ""⟩ (.plain "boom") "r1" "g1").2.2.2
    rfl rfl

end Rfc7807
